import Mathlib

/-!
Verification development for the conda package statistics scraper
(source: get_stats.py).  The Python source is shallowly embedded below:
pure parsing helpers become Lean functions, exception-raising code returns
an explicit error through the operator Except, and the outer driver with its
two concurrent phases is modelled as a function of the completion orders of
the two task pools (the pools only reorder completions, so a reordering
function on the task list captures every schedule).
-/

/-- Kinds of Python exceptions that the embedded code can raise. -/
inductive PyErr
  /-- AttributeError, e.g. accessing an attribute of None. -/
  | attributeError
  /-- TypeError, e.g. int(None), or ordering comparison between None and int. -/
  | typeError
  /-- ValueError, e.g. int applied to a non-numeric string. -/
  | valueError
  /-- IndexError from indexing past the end of a list. -/
  | indexError
  /-- NameError from referencing an undefined variable. -/
  | nameError
  /-- KeyError from a missing dictionary key. -/
  | keyError
deriving DecidableEq, Repr

/-- Digits of a decimal literal folded to a number, as int() does on digits. -/
def digitsToNat (cs : List Char) : Nat :=
  cs.foldl (fun n c => 10 * n + (c.toNat - 48)) 0

/-- Characters stripped by python int() around a numeric literal. -/
def isPySpace (c : Char) : Bool :=
  c = ' ' || c = '\t' || c = '\n' || c = '\r' || c = '\x0b' || c = '\x0c'

/-- Model of the builtin int() applied to a string: surrounding whitespace is
ignored, an optional single sign precedes a non-empty run of decimal digits,
anything else raises ValueError.  (Underscore separators and non-ASCII digits,
which the scraped pages never contain, are not modelled.) -/
def pyIntOfString (s : String) : Except PyErr Int :=
  let core := ((s.data.dropWhile isPySpace).reverse.dropWhile isPySpace).reverse
  match core with
  | '-' :: ds =>
      if ds ≠ [] ∧ ds.all Char.isDigit then .ok (-(digitsToNat ds : Int)) else .error .valueError
  | '+' :: ds =>
      if ds ≠ [] ∧ ds.all Char.isDigit then .ok (digitsToNat ds : Int) else .error .valueError
  | ds =>
      if ds ≠ [] ∧ ds.all Char.isDigit then .ok (digitsToNat ds : Int) else .error .valueError

/-- A span element as seen through bs4: `.string` is its unique string child,
or None when the element does not have exactly one string child. -/
structure SpanTag where
  str : Option String
deriving DecidableEq, Repr

/-- A markup node of the parsed detail page, with just the capabilities the
source uses: its title attribute, its first span descendant (bs4 `tag.span`),
its href attribute (bs4 `tag.attrs` lookup) and its child segments
(bs4 `tag.contents`, here kept as the text of each segment). -/
structure TagT where
  title : Option String
  span : Option SpanTag
  href : Option String
  contents : List String
deriving DecidableEq, Repr

/-- A parsed document: all markup nodes listed in document order
(the order bs4 find_all traverses them). -/
structure Soup where
  tags : List TagT
deriving DecidableEq, Repr

/-- Relative-upload-time record parsed by PackageInfoPage.parse_times:
the dictionary with the keys years, months, days. -/
structure Times where
  years : Nat
  months : Nat
  days : Nat
deriving DecidableEq, Repr

/-- PackageInfoPage: a package name together with the parsed page. -/
structure PackageInfoPage where
  name : String
  soup : Soup
deriving DecidableEq, Repr

/-- Model of re.search for the pattern `(\d+) UNIT` over the characters of the
subject: the match succeeds at the leftmost position holding a digit whose
maximal digit run is immediately followed by a space and the unit word, and
group 1 is that digit run.  (Scanning single characters is equivalent: a
position strictly inside a digit run sees the same following text, so it
matches only if the head of the run already matched.) -/
def searchUnit (unit : List Char) : List Char → Option Nat
  | [] => none
  | c :: cs =>
      if c.isDigit ∧ (' ' :: unit).isPrefixOf ((c :: cs).dropWhile Char.isDigit) then
        some (digitsToNat ((c :: cs).takeWhile Char.isDigit))
      else
        searchUnit unit cs

namespace PackageInfoPage

/-- PackageInfoPage.get_tag_with: find_all with the given title attribute and
return the first hit, or None when there is no hit. -/
def get_tag_with (p : PackageInfoPage) (title : String) : Option TagT :=
  match p.soup.tags.filter (fun t => t.title == some title) with
  | [] => none
  | t :: _ => some t

/-- PackageInfoPage.parse_times: for each of the unit words years, months and
days, re.search the text for `(\d+) unit` and record the captured number, or 0
when the unit word does not appear.  The source ends with `times or None`;
`times` always carries exactly the three keys (every loop iteration inserts
one), so the dictionary is never falsy and the None branch is dead: the
function always returns the record. -/
def parse_times (s : String) : Option Times :=
  some
    { years := (searchUnit "years".data s.data).getD 0
      months := (searchUnit "months".data s.data).getD 0
      days := (searchUnit "days".data s.data).getD 0 }

/-- PackageInfoPage.download_count: `int(tag.span.string) if tag else None`.
A missing tag yields None; a found tag without a span descendant raises
AttributeError (None.string); a span whose string is None raises TypeError
(int(None)); non-numeric text raises ValueError. -/
def download_count (p : PackageInfoPage) : Except PyErr (Option Int) :=
  match p.get_tag_with "Download Count" with
  | none => .ok none
  | some tag =>
      match tag.span with
      | none => .error .attributeError
      | some sp =>
          match sp.str with
          | none => .error .typeError
          | some s => (pyIntOfString s).map some

/-- PackageInfoPage.homepage: `tag.attrs['href'] if tag else None`; the
attrs lookup raises KeyError when the found tag lacks an href attribute. -/
def homepage (p : PackageInfoPage) : Except PyErr (Option String) :=
  match p.get_tag_with "Home Page" with
  | none => .ok none
  | some tag =>
      match tag.href with
      | none => .error .keyError
      | some h => .ok (some h)

/-- PackageInfoPage.last_upload: when the titled tag is found, parse its third
content segment (`tag.contents[2]`, raising IndexError when there are fewer
than three); when it is not found the function falls through and returns
None. -/
def last_upload (p : PackageInfoPage) : Except PyErr (Option Times) :=
  match p.get_tag_with "Last upload" with
  | none => .ok none
  | some tag =>
      match tag.contents[2]? with
      | none => .error .indexError
      | some s => .ok (parse_times s)

end PackageInfoPage

/-- The per-package dictionary built in main:
keys downloads, homepage and last_upload, inserted in that order. -/
structure PackageRecord where
  downloads : Option Int
  homepage : Option String
  last_upload : Option Times
deriving DecidableEq, Repr

/-- One entry of the package_data comprehension in main.  The fetched page is
None when PackageInfoPage.from_name failed; the comprehension then evaluates
`page.download_count` on None and raises AttributeError.  On a real page the
three accessors run left to right and the first raised exception wins. -/
def buildEntry : String × Option PackageInfoPage → Except PyErr (String × PackageRecord)
  | (_, none) => .error .attributeError
  | (n, some p) =>
      match p.download_count with
      | .error e => .error e
      | .ok d =>
          match p.homepage with
          | .error e => .error e
          | .ok h =>
              match p.last_upload with
              | .error e => .error e
              | .ok lu => .ok (n, { downloads := d, homepage := h, last_upload := lu })

/-- The package_data dict comprehension over the completed pages, in their
completion order; entries are evaluated left to right and an exception in any
entry aborts the comprehension. -/
def buildData : List (String × Option PackageInfoPage) → Except PyErr (List (String × PackageRecord))
  | [] => .ok []
  | e :: es =>
      match buildEntry e with
      | .error er => .error er
      | .ok r =>
          match buildData es with
          | .error er => .error er
          | .ok rs => .ok (r :: rs)

/-- The sort key of `sorted(package_data.items(), key=...)`: the value under
the downloads key.  The default 0 is only a placeholder: the sort model below
compares keys only on lists where every downloads value is present. -/
def recKey (e : String × PackageRecord) : Int := e.2.downloads.getD 0

/-- Comparison used by the sort step: ascending on the downloads key. -/
def recLE (a b : String × PackageRecord) : Prop := recKey a ≤ recKey b

instance : DecidableRel recLE := fun a b => inferInstanceAs (Decidable (recKey a ≤ recKey b))

instance : IsTotal (String × PackageRecord) recLE := ⟨fun a b => Int.le_total (recKey a) (recKey b)⟩

instance : IsTrans (String × PackageRecord) recLE := ⟨fun _ _ _ h h' => le_trans h h'⟩

/-- Strict version of the sort order, used to state uniqueness of the sorted
output when the downloads keys are pairwise distinct. -/
def recLT (a b : String × PackageRecord) : Prop := recKey a < recKey b

instance : IsAntisymm (String × PackageRecord) recLT :=
  ⟨fun _ _ h h' => absurd h' (lt_asymm h)⟩

/-- Model of `sorted(package_data.items(), key=lambda package: package[1].get('downloads'))`.
CPython sorts stably and ascending; the stable ascending sort is computed here
by insertion sort, whose output agrees with any stable sort.  When every key
is an int the sort succeeds.  Otherwise some key is None, and as soon as two
elements exist timsort performs a comparison involving the None key (run
detection and binary insertion compare every element at least once), and
`None < int`, `int < None` and `None < None` all raise TypeError.  A
singleton or empty list is returned without any comparison. -/
def pySortByDownloads (l : List (String × PackageRecord)) :
    Except PyErr (List (String × PackageRecord)) :=
  if l.all (fun e => e.2.downloads.isSome) then .ok (List.insertionSort recLE l)
  else if l.length ≤ 1 then .ok l
  else .error .typeError

/-- JSON string literal as json.dumps renders it.  The package names and URLs
scraped here never contain characters needing escapes, which are therefore not
modelled. -/
def jsonStr (s : String) : String := "\"" ++ s ++ "\""

/-- json.dumps rendering of the last_upload dictionary, keys in insertion
order years, months, days. -/
def jsonOfTimes (t : Times) : String :=
  "\x7b\"years\": " ++ toString t.years ++ ", \"months\": " ++ toString t.months ++
    ", \"days\": " ++ toString t.days ++ "\x7d"

/-- json.dumps rendering of an optional value: None becomes null. -/
def jsonOpt (f : α → String) : Option α → String
  | none => "null"
  | some x => f x

/-- json.dumps rendering of one package record, keys in insertion order. -/
def jsonOfRecord (r : PackageRecord) : String :=
  "\x7b\"downloads\": " ++ jsonOpt toString r.downloads ++
    ", \"homepage\": " ++ jsonOpt jsonStr r.homepage ++
    ", \"last_upload\": " ++ jsonOpt jsonOfTimes r.last_upload ++ "\x7d"

/-- json.dumps of the final dict: entries in dict iteration order, which for
the runs considered here (pairwise-distinct package names) is exactly the
order of the modelled association list. -/
def jsonDumps (l : List (String × PackageRecord)) : String :=
  "\x7b" ++ String.intercalate ", " (l.map fun e => jsonStr e.1 ++ ": " ++ jsonOfRecord e.2) ++ "\x7d"

/-- Number of listing pages hard-coded in the source. -/
def N_PAGES : Nat := 198

/-- Python truthiness applied by `limit or N_PAGES`:
None and 0 are falsy, every other int is itself. -/
def pyOrInt : Option Int → Int → Int
  | none, d => d
  | some v, d => if v = 0 then d else v

/-- Model of range(n) for an int argument: empty when n is not positive. -/
def pyRange (n : Int) : List Int := (List.range n.toNat).map Int.ofNat

/-- The page indices submitted by get_package_names:
`range(limit or N_PAGES)`. -/
def listingRange (limit : Option Int) : List Int := pyRange (pyOrInt limit (Int.ofNat N_PAGES))

/-- The collection loop of get_package_names over the completed listing
futures (in completion order).  A successful future extends the accumulator
with that page's names.  A failed future enters the except handler, which
executes `logging.ERROR(f'... {num}')`: evaluating the f-string reads the
undefined name num and raises NameError (and logging.ERROR is the int
constant 40, not a function, so even with a defined name the handler would
raise TypeError); the new exception is not caught and propagates out of
get_package_names. -/
def gatherNames : List (Except Unit (List String)) → List String → Except PyErr (List String)
  | [], acc => .ok acc
  | .ok ns :: rest, acc => gatherNames rest (acc ++ ns)
  | .error _ :: _, _ => .error .nameError

/-- get_package_names: fetch the pages of `range(limit or N_PAGES)` and fold
the completed results.  fetchPage gives each page task's outcome and listOrd
is the completion order of the pool (a reordering of the submitted tasks). -/
def get_package_names (fetchPage : Int → Except Unit (List String)) (limit : Option Int)
    (listOrd : List Int → List Int) : Except PyErr (List String) :=
  gatherNames ((listOrd (listingRange limit)).map fetchPage) []

/-- Characters at which str.splitlines breaks lines. -/
def isLineBreakChar (c : Char) : Bool :=
  c = '\n' || c = '\r' || c = '\x0b' || c = '\x0c' ||
    c = '\x1c' || c = '\x1d' || c = '\x1e' || c = '\x85' || c = '\u2028' || c = '\u2029'

/-- First step of str.splitlines: the two-character boundary carriage return
followed by line feed collapses to a single line feed boundary. -/
def normNewlines : List Char → List Char
  | [] => []
  | [c] => [c]
  | c :: d :: cs =>
      if c = '\r' ∧ d = '\n' then '\n' :: normNewlines cs
      else c :: normNewlines (d :: cs)

/-- Second step of str.splitlines: break at every line-break character; a
final segment is emitted only when non-empty (no trailing empty line). -/
def splitBreaks : List Char → List Char → List String
  | [], acc => if acc.isEmpty then [] else [String.mk acc.reverse]
  | c :: cs, acc =>
      if isLineBreakChar c then String.mk acc.reverse :: splitBreaks cs []
      else splitBreaks cs (c :: acc)

/-- Model of str.splitlines, used on the cache file content. -/
def splitlines (s : String) : List String := splitBreaks (normNewlines s.data) []

/-- Model of `'\n'.join(package_names)`, the content written to the cache
file. -/
def joinLines : List String → String
  | [] => ""
  | [s] => s
  | s :: ss => s ++ "\n" ++ joinLines ss

/-- The body of the try block in main, after the pages dict is complete:
build package_data (which can raise on a None page), apply the sort step when
the flag is set (which can raise on None keys), and serialize.  The input list
is the pages dict in completion order. -/
def detailPhase (sortFlag : Bool) (pages : List (String × Option PackageInfoPage)) :
    Except PyErr String :=
  match buildData pages with
  | .error e => .error e
  | .ok data =>
      match (if sortFlag then pySortByDownloads data else .ok data) with
      | .error e => .error e
      | .ok data' => .ok (jsonDumps data')

/-- Observable outcome of one run of main, when no exception escapes main:
the value main returns, what was printed on each stream, the cache file
content written (if any), the name list the detail phase used, and whether
the listing phase actually ran. -/
structure MainOutcome where
  ret : Option Nat
  stdoutJson : Option String
  stderrMsg : Option String
  cacheWritten : Option String
  namesUsed : List String
  listingRan : Bool
deriving DecidableEq, Repr

/-- The detail-fetch-and-report half of main.  Each name is submitted to
PackageInfoPage.from_name, which never raises (it catches every exception and
returns None), so the pages dict simply maps each name to its optional page,
in completion order sched names.  The surrounding try/except turns any
exception raised inside (building package_data, sorting, serializing) into a
message on the standard error stream and the return value 1. -/
def finishDetail (sortFlag : Bool) (sched : List String → List String)
    (detailOf : String → Option PackageInfoPage) (names : List String) (ran : Bool)
    (written : Option String) : MainOutcome :=
  match detailPhase sortFlag ((sched names).map fun n => (n, detailOf n)) with
  | .ok out =>
      { ret := none, stdoutJson := some out, stderrMsg := none, cacheWritten := written
        namesUsed := names, listingRan := ran }
  | .error _ =>
      { ret := some 1, stdoutJson := none, stderrMsg := some "Could not get package counts"
        cacheWritten := written, namesUsed := names, listingRan := ran }

/-- Model of main.  cache is the content of package_names.txt when the file
exists; fetchPage gives each listing page task's outcome; listOrd and sched
are the completion orders of the two pools.  When the cache exists its lines
are the names and the listing phase is skipped.  Otherwise get_package_names
runs (its NameError on a failed page propagates out of main uncaught); an
empty result prints to stderr and returns 1; a non-empty result is written to
the cache file before the detail phase. -/
def mainModel (cache : Option String) (fetchPage : Int → Except Unit (List String))
    (limit : Option Int) (listOrd : List Int → List Int)
    (detailOf : String → Option PackageInfoPage) (sched : List String → List String)
    (sortFlag : Bool) : Except PyErr MainOutcome :=
  match cache with
  | some content => .ok (finishDetail sortFlag sched detailOf (splitlines content) false none)
  | none =>
      match get_package_names fetchPage limit listOrd with
      | .error e => .error e
      | .ok names =>
          if names.isEmpty then
            .ok { ret := some 1, stdoutJson := none
                  stderrMsg := some "Could not parse package name list"
                  cacheWritten := none, namesUsed := [], listingRan := true }
          else .ok (finishDetail sortFlag sched detailOf names true (some (joinLines names)))

/-- Exit code of the whole process.  The entry point runs `main()` and
discards its return value without calling sys.exit, so a normal return (of
any value) ends the interpreter with exit code 0; only an exception escaping
main makes the interpreter exit non-zero. -/
def processExit : Except PyErr MainOutcome → Nat
  | .error _ => 1
  | .ok _ => 0

/-- What the run printed to the standard output stream (None when it crashed
or failed before printing). -/
def runStdout : Except PyErr MainOutcome → Option String
  | .error _ => none
  | .ok o => o.stdoutJson

/-- The value main returned, when main returned at all. -/
def runRet : Except PyErr MainOutcome → Option Nat
  | .error _ => none
  | .ok o => o.ret

/-- The exception that escaped main, if one did. -/
def runErr : Except PyErr MainOutcome → Option PyErr
  | .error e => some e
  | .ok _ => none

deriving instance DecidableEq for Except

/-- The value inside a successful buildEntry result; the fallback record is
never used on entries that are known to succeed. -/
def okEntry : Except PyErr (String × PackageRecord) → String × PackageRecord
  | .ok r => r
  | .error _ => ("", { downloads := none, homepage := none, last_upload := none })

/-- Concrete fixtures used to instantiate the theorems below. -/
def goodPageA : PackageInfoPage :=
  ⟨"a", ⟨[⟨some "Download Count", some ⟨some "5"⟩, none, []⟩]⟩⟩

/-- Detail-fetch outcome with exactly one failing task: the page of a is
retrieved, the page of every other name (here only b) is not, so
PackageInfoPage.from_name returns None for it. -/
def oneFailFetch : String → Option PackageInfoPage :=
  fun n => if n = "a" then some goodPageA else none

/-- Page for package A whose download count reads 50. -/
def pageA50 : PackageInfoPage :=
  ⟨"A", ⟨[⟨some "Download Count", some ⟨some "50"⟩, none, []⟩]⟩⟩

/-- Page for package C on which the Download Count node is absent. -/
def pageCAbsent : PackageInfoPage := ⟨"C", ⟨[]⟩⟩

/-- Detail-fetch outcome for the sort counterexample: A has downloads 50,
C has no downloads node at all. -/
def absentKeyFetch : String → Option PackageInfoPage :=
  fun n => if n = "A" then some pageA50 else some pageCAbsent

/-- Two pages with the same download count 10, for the tie counterexample. -/
def pageTieA : PackageInfoPage :=
  ⟨"a", ⟨[⟨some "Download Count", some ⟨some "10"⟩, none, []⟩]⟩⟩

/-- Second page with download count 10. -/
def pageTieB : PackageInfoPage :=
  ⟨"b", ⟨[⟨some "Download Count", some ⟨some "10"⟩, none, []⟩]⟩⟩

/-- Detail-fetch outcome giving both a and b the same download count. -/
def tieFetch : String → Option PackageInfoPage :=
  fun n => if n = "a" then some pageTieA else some pageTieB

/-- Tag fixture: a Last upload node whose third content segment is the
relative-time text. -/
def lastUploadTag : TagT :=
  ⟨some "Last upload", none, none, ["i", " ", "updated 5 days"]⟩

/-- Page fixture containing lastUploadTag. -/
def lastUploadPage : PackageInfoPage := ⟨"p", ⟨[lastUploadTag]⟩⟩

/-- First of two Download Count nodes, holding 1234. -/
def dcTagFirst : TagT := ⟨some "Download Count", some ⟨some "1234"⟩, none, []⟩

/-- A later duplicate Download Count node, holding 999. -/
def dcTagSecond : TagT := ⟨some "Download Count", some ⟨some "999"⟩, none, []⟩

/-- Page with two Download Count nodes in document order. -/
def dcPage : PackageInfoPage := ⟨"pkg", ⟨[dcTagFirst, dcTagSecond]⟩⟩

/-- Page with no nodes at all. -/
def emptyPage : PackageInfoPage := ⟨"empty", ⟨[]⟩⟩

/-- A Download Count node with no span descendant. -/
def spanlessDcTag : TagT := ⟨some "Download Count", none, none, []⟩

/-- Page whose Download Count node lacks the span holding the number. -/
def spanlessDcPage : PackageInfoPage := ⟨"bad", ⟨[spanlessDcTag]⟩⟩

/-- The namesUsed field of a finished detail phase is the name list it was
started with, on both the success and the failure branch. -/
theorem finishDetail_namesUsed (sortFlag : Bool) (sched : List String → List String)
    (detailOf : String → Option PackageInfoPage) (names : List String) (ran : Bool)
    (written : Option String) :
    (finishDetail sortFlag sched detailOf names ran written).namesUsed = names := by
  unfold finishDetail
  cases detailPhase sortFlag ((sched names).map fun n => (n, detailOf n)) <;> rfl

/-- The listingRan field of a finished detail phase is the flag it was given. -/
theorem finishDetail_listingRan (sortFlag : Bool) (sched : List String → List String)
    (detailOf : String → Option PackageInfoPage) (names : List String) (ran : Bool)
    (written : Option String) :
    (finishDetail sortFlag sched detailOf names ran written).listingRan = ran := by
  unfold finishDetail
  cases detailPhase sortFlag ((sched names).map fun n => (n, detailOf n)) <;> rfl

/-- The cacheWritten field of a finished detail phase is the content it was
given. -/
theorem finishDetail_cacheWritten (sortFlag : Bool) (sched : List String → List String)
    (detailOf : String → Option PackageInfoPage) (names : List String) (ran : Bool)
    (written : Option String) :
    (finishDetail sortFlag sched detailOf names ran written).cacheWritten = written := by
  unfold finishDetail
  cases detailPhase sortFlag ((sched names).map fun n => (n, detailOf n)) <;> rfl

/-- C1: the claim says a single failed detail fetch is isolated and the run
still reaches reporting, emitting a ResultSet that omits the package or
records it with all fields absent.  The code does the opposite: from_name
stores None in the pages dict, the package_data comprehension evaluates
None.download_count, the AttributeError is caught by the try/except around
the whole detail phase, and the run prints to stderr and returns 1 with
nothing emitted.  Here both packages are listed from the cache, a succeeds
and only b fails, yet stdout stays empty and main returns 1. -/
theorem c1_one_detail_failure_aborts_run :
    mainModel (some "a\nb") (fun _ => .error ()) none id oneFailFetch id true =
      .ok { ret := some 1, stdoutJson := none
            stderrMsg := some "Could not get package counts", cacheWritten := none
            namesUsed := ["a", "b"], listingRan := false } := by
  rfl

/-- C2: the claim says a single failed listing page is logged and skipped,
returning the union of the names of the succeeding pages.  In the code the
except handler itself raises: it evaluates an f-string referencing the
undefined name num (and calls the int constant logging.ERROR), so
get_package_names raises NameError instead of returning; main does not catch
it and the interpreter aborts with exit code 1.  Here page 0 fails and page 1
succeeds with one name. -/
theorem c2_one_listing_failure_crashes_run :
    get_package_names (fun n => if n = 0 then .error () else .ok ["x"]) (some 2) id =
      .error .nameError
    ∧ mainModel none (fun n => if n = 0 then .error () else .ok ["x"]) (some 2) id
        (fun _ => none) id true = .error .nameError
    ∧ processExit (mainModel none (fun n => if n = 0 then .error () else .ok ["x"]) (some 2) id
        (fun _ => none) id true) = 1 := by
  exact ⟨rfl, rfl, rfl⟩

/-- C3: the claim says the process exit code is 1 exactly when no names were
obtained or reporting failed.  main does return 1 on the no-names path, but
the entry point calls main() without sys.exit and discards the value, so the
interpreter still exits 0.  Here the single listing page parses but yields no
names: main returns 1, prints the failure to stderr, and the process exit
code is nevertheless 0. -/
theorem c3_return_code_discarded :
    runRet (mainModel none (fun _ => .ok []) (some 1) id (fun _ => none) id true) = some 1
    ∧ (mainModel none (fun _ => .ok []) (some 1) id (fun _ => none) id true) =
        .ok { ret := some 1, stdoutJson := none
              stderrMsg := some "Could not parse package name list", cacheWritten := none
              namesUsed := [], listingRan := true }
    ∧ processExit (mainModel none (fun _ => .ok []) (some 1) id (fun _ => none) id true) = 0 := by
  exact ⟨rfl, rfl, rfl⟩

/-- C10: `range(limit or N_PAGES)` treats the int 0 as falsy exactly like
None, so --limit 0 fetches all 198 listing pages, the same pages as passing
no limit, and get_package_names behaves identically for the two values. -/
theorem c10_limit_zero_means_no_limit :
    listingRange (some 0) = listingRange none
    ∧ (listingRange (some 0)).length = N_PAGES
    ∧ N_PAGES = 198
    ∧ ∀ (fetchPage : Int → Except Unit (List String)) (listOrd : List Int → List Int),
        get_package_names fetchPage (some 0) listOrd = get_package_names fetchPage none listOrd := by
  refine ⟨rfl, ?_, rfl, fun _ _ => rfl⟩
  simp [listingRange, pyRange, pyOrInt, N_PAGES]

/-- C5: parse_times reads each unit with its own regex and defaults it to 0,
so "updated 1 years, 2 months, 3 days" parses to (1, 2, 3) and
"updated 5 days" to (0, 0, 5); parse_times never returns None (the dict it
builds always holds the three keys, so `times or None` keeps the dict), and
last_upload answers None exactly when no node titled Last upload exists —
never merely because every parsed unit is zero.  When the node exists with a
third content segment, last_upload returns exactly the parse of that text. -/
theorem c5_last_upload_parsing :
    PackageInfoPage.parse_times "updated 1 years, 2 months, 3 days" = some ⟨1, 2, 3⟩
    ∧ PackageInfoPage.parse_times "updated 5 days" = some ⟨0, 0, 5⟩
    ∧ (∀ s, PackageInfoPage.parse_times s ≠ none)
    ∧ (∀ p : PackageInfoPage, p.last_upload = .ok none ↔ p.get_tag_with "Last upload" = none)
    ∧ (∀ (p : PackageInfoPage) (tag : TagT) (s : String),
        p.get_tag_with "Last upload" = some tag → tag.contents[2]? = some s →
        p.last_upload = .ok (PackageInfoPage.parse_times s)) := by
  refine ⟨by decide, by decide, ?_, ?_, ?_⟩
  · intro s
    simp [PackageInfoPage.parse_times]
  · intro p
    cases h : p.get_tag_with "Last upload" with
    | none => simp [PackageInfoPage.last_upload, h]
    | some tag =>
        cases h2 : tag.contents[2]? with
        | none => simp [PackageInfoPage.last_upload, h, h2]
        | some s => simp [PackageInfoPage.last_upload, h, h2, PackageInfoPage.parse_times]
  · intro p tag s h h2
    simp [PackageInfoPage.last_upload, h, h2]

/-- Witness for C5: on a concrete page whose Last upload node carries the
text "updated 5 days" as its third content segment, the accessor returns the
record with years 0, months 0, days 5. -/
theorem c5_witness :
    PackageInfoPage.last_upload lastUploadPage = .ok (some ⟨0, 0, 5⟩) := by
  have h := c5_last_upload_parsing.2.2.2.2 lastUploadPage lastUploadTag "updated 5 days" rfl rfl
  rw [h]
  rfl

/-- C6: get_tag_with returns the head of find_all, i.e. the first node in
document order whose title attribute matches, ignoring later duplicates;
download_count is None exactly when no such node exists, and when the first
matching node carries a span with numeric text the parsed integer is
returned. -/
theorem c6_download_count_first_node :
    ∀ p : PackageInfoPage,
      p.get_tag_with "Download Count" =
          (p.soup.tags.filter fun t => t.title == some "Download Count").head?
      ∧ (p.get_tag_with "Download Count" = none → p.download_count = .ok none)
      ∧ (∀ (tag : TagT) (sp : SpanTag) (s : String) (n : Int),
          p.get_tag_with "Download Count" = some tag → tag.span = some sp →
          sp.str = some s → pyIntOfString s = .ok n → p.download_count = .ok (some n)) := by
  intro p
  refine ⟨?_, ?_, ?_⟩
  · cases h : p.soup.tags.filter (fun t => t.title == some "Download Count") with
    | nil => simp [PackageInfoPage.get_tag_with, h]
    | cons t ts => simp [PackageInfoPage.get_tag_with, h]
  · intro h
    simp [PackageInfoPage.download_count, h]
  · intro tag sp s n h hsp hs hn
    simp [PackageInfoPage.download_count, h, hsp, hs, hn, Except.map]

/-- Witness for C6: on a page with two Download Count nodes the first one (in
document order, text 1234) wins and parses to the integer 1234, and on a page
with no such node the accessor answers None. -/
theorem c6_witness :
    PackageInfoPage.download_count dcPage = .ok (some 1234)
    ∧ PackageInfoPage.download_count emptyPage = .ok none := by
  constructor
  · exact (c6_download_count_first_node dcPage).2.2 dcTagFirst ⟨some "1234"⟩ "1234" 1234
      rfl rfl rfl rfl
  · exact (c6_download_count_first_node emptyPage).2.1 rfl

/-- C9: when a node titled Download Count exists but no span descendant with
parseable numeric text sits inside it, download_count raises (AttributeError
on a missing span, TypeError on a span without a string, ValueError on
non-numeric text) instead of answering None: the accessor tolerates only the
complete absence of the titled node. -/
theorem c9_malformed_download_node_raises :
    ∀ (p : PackageInfoPage) (tag : TagT), p.get_tag_with "Download Count" = some tag →
      (¬ ∃ (sp : SpanTag) (s : String) (n : Int),
          tag.span = some sp ∧ sp.str = some s ∧ pyIntOfString s = .ok n) →
      ∃ e, p.download_count = .error e := by
  intro p tag h hno
  cases hsp : tag.span with
  | none => exact ⟨.attributeError, by simp [PackageInfoPage.download_count, h, hsp]⟩
  | some sp =>
      cases hs : sp.str with
      | none => exact ⟨.typeError, by simp [PackageInfoPage.download_count, h, hsp, hs]⟩
      | some s =>
          cases hi : pyIntOfString s with
          | error e =>
              exact ⟨e, by simp [PackageInfoPage.download_count, h, hsp, hs, hi, Except.map]⟩
          | ok n => exact absurd ⟨sp, s, n, hsp, hs, hi⟩ hno

/-- Witness for C9: a concrete page whose Download Count node has no span
descendant makes download_count raise. -/
theorem c9_witness : ∃ e, PackageInfoPage.download_count spanlessDcPage = .error e := by
  refine c9_malformed_download_node_raises spanlessDcPage spanlessDcTag rfl ?_
  rintro ⟨sp, s, n, hsp, -, -⟩
  simp [spanlessDcTag] at hsp


/-- C4 counterexample: the claim promises a defined total ordering for
records with an absent downloads value instead of a comparator failure, but
sorting the two records A (downloads 50) and C (downloads absent) compares
the int 50 with None and raises TypeError, and a run holding those two
records aborts through the outer handler without emitting anything. -/
theorem c4_counterexample :
    pySortByDownloads [("A", { downloads := some 50, homepage := none, last_upload := none }),
        ("C", { downloads := none, homepage := none, last_upload := none })] =
      .error .typeError
    ∧ runStdout (mainModel (some "A\nC") (fun _ => .error ()) none id absentKeyFetch id true) =
        none
    ∧ runRet (mainModel (some "A\nC") (fun _ => .error ()) none id absentKeyFetch id true) =
        some 1 := by
  exact ⟨rfl, rfl, rfl⟩

/-- C4 as amended: with the sort option enabled, when every record carries a
downloads value the emitted ordering is ascending in that value (a stable
permutation of the input); but when at least two records exist and some
record lacks its downloads value, the comparator raises TypeError — absent
keys have no defined placement in this code. -/
theorem c4_sort_behaviour :
    ∀ l : List (String × PackageRecord),
      ((∀ e ∈ l, e.2.downloads.isSome) →
        ∃ l', pySortByDownloads l = .ok l' ∧ List.Sorted recLE l' ∧ l'.Perm l)
      ∧ (2 ≤ l.length → (∃ e ∈ l, e.2.downloads = none) →
          pySortByDownloads l = .error .typeError) := by
  intro l
  constructor
  · intro h
    have hall : l.all (fun e => e.2.downloads.isSome) = true :=
      List.all_eq_true.mpr fun e he => h e he
    refine ⟨List.insertionSort recLE l, ?_, List.sorted_insertionSort recLE l,
      List.perm_insertionSort recLE l⟩
    simp [pySortByDownloads, hall]
  · rintro hlen ⟨e, he, hnone⟩
    have hall : l.all (fun e => e.2.downloads.isSome) = false := by
      refine List.all_eq_false.mpr ⟨e, he, ?_⟩
      simp [hnone]
    have hlen' : ¬ l.length ≤ 1 := by omega
    simp [pySortByDownloads, hall, hlen']

/-- Witness for C4: on records A (downloads 50) and B (downloads 10) the sort
succeeds, is ascending and is a permutation of the input — concretely B
precedes A — and on records A (downloads 50), C (downloads absent) the
comparator raises. -/
theorem c4_witness :
    (∃ l', pySortByDownloads
        [("A", { downloads := some 50, homepage := none, last_upload := none }),
         ("B", { downloads := some 10, homepage := none, last_upload := none })] = .ok l'
      ∧ List.Sorted recLE l'
      ∧ l'.Perm [("A", { downloads := some 50, homepage := none, last_upload := none }),
         ("B", { downloads := some 10, homepage := none, last_upload := none })])
    ∧ pySortByDownloads [("A", { downloads := some 50, homepage := none, last_upload := none }),
        ("B", { downloads := some 10, homepage := none, last_upload := none })] =
      .ok [("B", { downloads := some 10, homepage := none, last_upload := none }),
        ("A", { downloads := some 50, homepage := none, last_upload := none })]
    ∧ pySortByDownloads [("A", { downloads := some 50, homepage := none, last_upload := none }),
        ("D", { downloads := none, homepage := none, last_upload := none })] =
      .error .typeError := by
  refine ⟨(c4_sort_behaviour _).1 ?_, rfl, (c4_sort_behaviour _).2 ?_ ?_⟩
  · intro e he
    fin_cases he <;> decide
  · decide
  · exact ⟨("D", { downloads := none, homepage := none, last_upload := none }), by decide, rfl⟩

/-- A character other than carriage return passes through the first
splitlines step unchanged. -/
theorem normNewlines_cons_of_ne (c : Char) (hc : c ≠ '\r') (cs : List Char) :
    normNewlines (c :: cs) = c :: normNewlines cs := by
  cases cs with
  | nil => rfl
  | cons d cs' =>
      rw [normNewlines, if_neg]
      rintro ⟨h1, -⟩
      exact hc h1

/-- The first splitlines step distributes over an initial segment free of
carriage returns. -/
theorem normNewlines_append (xs ys : List Char) (h : '\r' ∉ xs) :
    normNewlines (xs ++ ys) = xs ++ normNewlines ys := by
  induction xs with
  | nil => rfl
  | cons c cs ih =>
      have hc : c ≠ '\r' := fun he => h (he ▸ List.mem_cons_self c cs)
      rw [List.cons_append, normNewlines_cons_of_ne c hc,
        ih fun hm => h (List.mem_cons_of_mem c hm), List.cons_append]

/-- Splitting a break-free segment followed by a line feed emits exactly that
segment (prefixed by the pending accumulator) as one line. -/
theorem splitBreaks_append (cs rest acc : List Char)
    (h : ∀ c ∈ cs, isLineBreakChar c = false) :
    splitBreaks (cs ++ '\n' :: rest) acc =
      String.mk (acc.reverse ++ cs) :: splitBreaks rest [] := by
  induction cs generalizing acc with
  | nil => simp [splitBreaks, isLineBreakChar]
  | cons c cs ih =>
      have hc : isLineBreakChar c = false := h c (List.mem_cons_self c cs)
      rw [List.cons_append, splitBreaks, if_neg (by simp [hc])]
      rw [ih (c :: acc) fun d hd => h d (List.mem_cons_of_mem c hd)]
      simp

/-- Splitting a final break-free non-empty segment emits it as the last
line. -/
theorem splitBreaks_last (cs acc : List Char) (h : ∀ c ∈ cs, isLineBreakChar c = false)
    (hne : acc.reverse ++ cs ≠ []) :
    splitBreaks cs acc = [String.mk (acc.reverse ++ cs)] := by
  induction cs generalizing acc with
  | nil =>
      have hacc : ¬ acc.isEmpty := by
        simp only [List.append_nil] at hne
        simp [List.isEmpty_iff]
        intro hc
        exact hne (by simp [hc])
      simp [splitBreaks, hacc]
  | cons c cs ih =>
      have hc : isLineBreakChar c = false := h c (List.mem_cons_self c cs)
      rw [splitBreaks, if_neg (by simp [hc])]
      rw [ih (c :: acc) (fun d hd => h d (List.mem_cons_of_mem c hd)) (by simp)]
      simp

/-- Round trip of the cache content for non-empty break-free names: splitting
the line-feed join recovers the names exactly. -/
theorem splitlines_joinLines (ns : List String) (hne : ns ≠ [])
    (h : ∀ s ∈ ns, s ≠ "" ∧ ∀ c ∈ s.data, isLineBreakChar c = false) :
    splitlines (joinLines ns) = ns := by
  induction ns with
  | nil => exact absurd rfl hne
  | cons s ss ih =>
      obtain ⟨hs1, hs2⟩ := h s (List.mem_cons_self s ss)
      have hsd : s.data ≠ [] := by
        intro hd
        exact hs1 (by cases s; simp_all)
      have hcr : '\r' ∉ s.data := by
        intro hm
        have := hs2 '\r' hm
        simp [isLineBreakChar] at this
      cases ss with
      | nil =>
          show splitlines s = [s]
          unfold splitlines
          rw [show normNewlines s.data = s.data by
              have := normNewlines_append s.data [] hcr
              simpa [normNewlines] using this]
          rw [splitBreaks_last s.data [] hs2 (by simpa using hsd)]
          simp
      | cons s2 ss2 =>
          show splitlines (s ++ "\n" ++ joinLines (s2 :: ss2)) = s :: s2 :: ss2
          unfold splitlines
          rw [show (s ++ "\n" ++ joinLines (s2 :: ss2)).data =
              s.data ++ '\n' :: (joinLines (s2 :: ss2)).data by
            simp [String.data_append]]
          rw [normNewlines_append s.data _ hcr]
          rw [normNewlines_cons_of_ne '\n' (by decide) _]
          rw [splitBreaks_append s.data _ [] hs2]
          have hrec := ih (by simp) fun t ht => h t (List.mem_cons_of_mem s ht)
          unfold splitlines at hrec
          rw [hrec]
          simp

/-- C8 counterexample: the claim quantifies over every non-empty list of
names without newlines, but an empty-string name breaks the round trip:
writing ["a", ""] produces the file content "a\n", and splitlines drops the
trailing empty line, reading back only ["a"]. -/
theorem c8_counterexample :
    (["a", ""] : List String) ≠ []
    ∧ (∀ s ∈ (["a", ""] : List String), ∀ c ∈ s.data, c ≠ '\n')
    ∧ joinLines ["a", ""] = "a\n"
    ∧ splitlines (joinLines ["a", ""]) = ["a"]
    ∧ splitlines (joinLines ["a", ""]) ≠ ["a", ""] := by
  exact ⟨by decide, by decide, rfl, by decide, by decide⟩

/-- C8 as amended: for every non-empty list of non-empty package names none
of which contains a character splitlines treats as a line boundary, writing
the cache after a successful listing phase and reading it in a later run
yields exactly the original names; a run that finds the cache file present
skips the listing phase entirely and uses the cached names, and a run
without a cache whose listing succeeds with those names writes exactly their
line-feed join. -/
theorem c8_cache_roundtrip :
    ∀ ns : List String, ns ≠ [] →
      (∀ s ∈ ns, s ≠ "" ∧ ∀ c ∈ s.data, isLineBreakChar c = false) →
      splitlines (joinLines ns) = ns
      ∧ (∀ fetchPage limit listOrd detailOf sched sortFlag,
          ∃ out, mainModel (some (joinLines ns)) fetchPage limit listOrd detailOf sched
              sortFlag = .ok out
            ∧ out.namesUsed = ns ∧ out.listingRan = false)
      ∧ (∀ fetchPage limit listOrd detailOf sched sortFlag,
          get_package_names fetchPage limit listOrd = .ok ns →
          ∃ out, mainModel none fetchPage limit listOrd detailOf sched sortFlag = .ok out
            ∧ out.cacheWritten = some (joinLines ns) ∧ out.listingRan = true) := by
  intro ns hne h
  have hrt : splitlines (joinLines ns) = ns := splitlines_joinLines ns hne h
  refine ⟨hrt, ?_, ?_⟩
  · intro fetchPage limit listOrd detailOf sched sortFlag
    refine ⟨finishDetail sortFlag sched detailOf (splitlines (joinLines ns)) false none,
      rfl, ?_, ?_⟩
    · rw [finishDetail_namesUsed, hrt]
    · rw [finishDetail_listingRan]
  · intro fetchPage limit listOrd detailOf sched sortFlag hnames
    have hemp : ns.isEmpty = false := by
      cases ns with
      | nil => exact absurd rfl hne
      | cons a l => rfl
    refine ⟨finishDetail sortFlag sched detailOf ns true (some (joinLines ns)), ?_, ?_, ?_⟩
    · unfold mainModel
      rw [hnames]
      simp [hemp]
    · rw [finishDetail_cacheWritten]
    · rw [finishDetail_listingRan]

/-- Witness for C8: with the concrete names a and b, the round trip
reproduces them; a run whose cache file holds "a\nb" skips listing and uses
those names; and a cacheless run whose single listing page yields a and b
writes "a\nb" to the cache. -/
theorem c8_witness :
    splitlines (joinLines ["a", "b"]) = ["a", "b"]
    ∧ (∃ out, mainModel (some (joinLines ["a", "b"])) (fun _ => .ok []) none id
          (fun _ => none) id true = .ok out
        ∧ out.namesUsed = ["a", "b"] ∧ out.listingRan = false)
    ∧ (∃ out, mainModel none (fun _ => .ok ["a", "b"]) (some 1) id
          (fun _ => none) id true = .ok out
        ∧ out.cacheWritten = some (joinLines ["a", "b"]) ∧ out.listingRan = true) := by
  have h := c8_cache_roundtrip ["a", "b"] (by decide) (by decide)
  exact ⟨h.1, h.2.1 (fun _ => .ok []) none id (fun _ => none) id true,
    h.2.2 (fun _ => .ok ["a", "b"]) (some 1) id (fun _ => none) id true rfl⟩

/-- When every entry of the pages list builds successfully, the package_data
comprehension succeeds and returns exactly the per-entry records, in
order. -/
theorem buildData_eq_map (l : List (String × Option PackageInfoPage))
    (h : ∀ e ∈ l, ∃ r, buildEntry e = .ok r) :
    buildData l = .ok (l.map fun e => okEntry (buildEntry e)) := by
  induction l with
  | nil => rfl
  | cons e es ih =>
      obtain ⟨r, hr⟩ := h e (List.mem_cons_self e es)
      rw [List.map_cons, buildData, hr,
        ih fun d hd => h d (List.mem_cons_of_mem e hd)]
      rfl

/-- A list sorted by the downloads key whose keys are pairwise distinct is
sorted strictly. -/
theorem sorted_strict_of_keys_nodup (s : List (String × PackageRecord))
    (hs : List.Sorted recLE s) (hnd : (s.map recKey).Nodup) : List.Sorted recLT s := by
  have hne : s.Pairwise fun a b => recKey a ≠ recKey b := List.pairwise_map.mp hnd
  exact (hs.and hne).imp fun h => lt_of_le_of_ne h.1 h.2

/-- The stable ascending sort of two permuted lists with pairwise-distinct
downloads keys is one and the same list: the sort alone fixes the order. -/
theorem insertionSort_eq_of_perm_keys_nodup (l₁ l₂ : List (String × PackageRecord))
    (hp : l₁.Perm l₂) (hnd : (l₁.map recKey).Nodup) :
    List.insertionSort recLE l₁ = List.insertionSort recLE l₂ := by
  have hperm : (List.insertionSort recLE l₁).Perm (List.insertionSort recLE l₂) :=
    ((List.perm_insertionSort recLE l₁).trans hp).trans
      (List.perm_insertionSort recLE l₂).symm
  have hnd₁ : ((List.insertionSort recLE l₁).map recKey).Nodup :=
    (((List.perm_insertionSort recLE l₁).map recKey).nodup_iff).mpr hnd
  have hnd₂ : ((List.insertionSort recLE l₂).map recKey).Nodup :=
    ((hperm.map recKey).nodup_iff).mp hnd₁
  exact List.eq_of_perm_of_sorted hperm
    (sorted_strict_of_keys_nodup _ (List.sorted_insertionSort recLE l₁) hnd₁)
    (sorted_strict_of_keys_nodup _ (List.sorted_insertionSort recLE l₂) hnd₂)

/-- C7 as amended: when every detail task succeeded, every record carries a
downloads value and those values are pairwise distinct, the detail-and-report
phase produces the same serialized JSON for any two completion orders — the
sort step alone determines the output.  (The pairwise-distinctness hypothesis
is necessary: tied downloads keep their completion order under the stable
sort, as the counterexample shows.) -/
theorem c7_sorted_output_schedule_independent
    (pages₁ pages₂ : List (String × Option PackageInfoPage))
    (hperm : pages₁.Perm pages₂)
    (hok : ∀ e ∈ pages₁, ∃ r, buildEntry e = .ok r ∧ r.2.downloads.isSome)
    (hkeys : (pages₁.map fun e => recKey (okEntry (buildEntry e))).Nodup) :
    detailPhase true pages₁ = detailPhase true pages₂ := by
  have hok₁ : ∀ e ∈ pages₁, ∃ r, buildEntry e = .ok r :=
    fun e he => ⟨(hok e he).choose, (hok e he).choose_spec.1⟩
  have hok₂ : ∀ e ∈ pages₂, ∃ r, buildEntry e = .ok r :=
    fun e he => hok₁ e (hperm.mem_iff.mpr he)
  have hsome : ∀ e ∈ pages₁, (okEntry (buildEntry e)).2.downloads.isSome := by
    intro e he
    obtain ⟨r, hr, hd⟩ := hok e he
    rw [hr]
    exact hd
  have hall₁ : (pages₁.map fun e => okEntry (buildEntry e)).all
      (fun e => e.2.downloads.isSome) = true := by
    refine List.all_eq_true.mpr ?_
    intro r hr
    obtain ⟨e, he, rfl⟩ := List.mem_map.mp hr
    exact hsome e he
  have hall₂ : (pages₂.map fun e => okEntry (buildEntry e)).all
      (fun e => e.2.downloads.isSome) = true := by
    refine List.all_eq_true.mpr ?_
    intro r hr
    obtain ⟨e, he, rfl⟩ := List.mem_map.mp hr
    exact hsome e (hperm.mem_iff.mpr he)
  have hmperm : (pages₁.map fun e => okEntry (buildEntry e)).Perm
      (pages₂.map fun e => okEntry (buildEntry e)) := hperm.map _
  have hknd : ((pages₁.map fun e => okEntry (buildEntry e)).map recKey).Nodup := by
    rw [List.map_map]
    exact hkeys
  unfold detailPhase
  rw [buildData_eq_map pages₁ hok₁, buildData_eq_map pages₂ hok₂]
  simp only [if_true]
  rw [show pySortByDownloads (pages₁.map fun e => okEntry (buildEntry e)) =
      .ok (List.insertionSort recLE (pages₁.map fun e => okEntry (buildEntry e))) by
    simp [pySortByDownloads, hall₁]]
  rw [show pySortByDownloads (pages₂.map fun e => okEntry (buildEntry e)) =
      .ok (List.insertionSort recLE (pages₂.map fun e => okEntry (buildEntry e))) by
    simp [pySortByDownloads, hall₂]]
  rw [insertionSort_eq_of_perm_keys_nodup _ _ hmperm hknd]

/-- Witness for C7: two completion orders of the same two pages with distinct
download counts 3 and 7 serialize identically. -/
theorem c7_witness :
    detailPhase true [("x", some ⟨"x", ⟨[⟨some "Download Count", some ⟨some "3"⟩, none, []⟩]⟩⟩),
        ("y", some ⟨"y", ⟨[⟨some "Download Count", some ⟨some "7"⟩, none, []⟩]⟩⟩)] =
      detailPhase true
        [("y", some ⟨"y", ⟨[⟨some "Download Count", some ⟨some "7"⟩, none, []⟩]⟩⟩),
         ("x", some ⟨"x", ⟨[⟨some "Download Count", some ⟨some "3"⟩, none, []⟩]⟩⟩)] := by
  refine c7_sorted_output_schedule_independent _ _ (List.Perm.swap _ _ _) ?_ (by decide)
  intro e he
  rcases List.mem_cons.mp he with rfl | he2
  · exact ⟨_, rfl, rfl⟩
  · rcases List.mem_cons.mp he2 with rfl | he3
    · exact ⟨_, rfl, rfl⟩
    · exact absurd he3 (List.not_mem_nil e)

/-- C7 counterexample: with the sort enabled and a fixed set of records in
which a and b both have downloads 10, the stable sort preserves completion
order among the tied records, so the runs with completion orders a,b and b,a
serialize different JSON texts: the output is not independent of completion
order. -/
theorem c7_counterexample :
    (id ["a", "b"]).Perm (List.reverse ["a", "b"])
    ∧ runStdout (mainModel (some "a\nb") (fun _ => .error ()) none id tieFetch id true) ≠
        runStdout (mainModel (some "a\nb") (fun _ => .error ()) none id tieFetch
          List.reverse true) := by
  constructor
  · decide
  · decide
